import Mathlib

/-
  Verification development for the wallpaper_not-engine_linux repository.

  Shallow embedding of the render/display orchestration core:
  - Config::parse_args (src/config/config.cpp)
  - Renderer::get_or_create_framebuffer (src/rendering/renderer.cpp)
  - WaylandBackend surface presentation and output lookup
    (src/backends/wayland_backend.cpp)
  - X11Backend::set_wallpaper (src/backends/x11_backend.cpp)
  - the main orchestration loop tick (src/core/main.cpp)

  External, environment-dependent effects (GL allocation success, EGL
  surface creation, MPV render results, compositor configure events) are
  passed in explicitly as boolean/optional oracle inputs; machine doubles
  on the volume/duration paths are modelled as exact rationals (the
  comparisons and divisions involved are exact for the values concerned).
-/

namespace WNE

/-! ## Configuration (src/config/config.cpp, include/config.h) -/

/-- std::min on doubles, modelled on exact rationals: min(a,b) = b < a ? b : a. -/
def cpp_min (a b : ℚ) : ℚ := if b < a then b else a

/-- std::max on doubles, modelled on exact rationals: max(a,b) = a < b ? b : a. -/
def cpp_max (a b : ℚ) : ℚ := if a < b then b else a

/-- One parsed command-line token group, as recognized by the branches of
Config::parse_args.  A constructor carrying a value stands for the flag
together with its following argument; `media` stands for a bare token not
starting with a dash. -/
inductive PArg where
  | output (s : String)
  | noLoop
  | noHardwareDecode
  | volume (v : ℚ)
  | mpvOptions (s : String)
  | fps (n : Int)
  | silent
  | noautomute
  | scaling (s : String)
  | screenRoot (s : String)
  | bg (s : String)
  | forceX11
  | forceWayland
  | verbose
  | daemonFlag
  | logLevel (s : String)
  | noAdaptiveFps
  | media (s : String)
deriving DecidableEq, Repr

/-- The Config structure with its field defaults (include/config.h). -/
structure Config where
  media_path : String := ""
  outputs : List String := []
  loop : Bool := true
  hardware_decode : Bool := true
  mute_audio : Bool := false
  volume : ℚ := 1/2
  mpv_options : String := ""
  force_x11 : Bool := false
  force_wayland : Bool := false
  verbose : Bool := false
  daemon : Bool := false
  log_level : String := "info"
  fps : Int := 30
  silent : Bool := false
  noautomute : Bool := false
  scaling : String := "fit"
  screen_root : String := ""
  background_id : String := ""
  adaptive_fps : Bool := true
deriving DecidableEq, Repr

/-- One iteration of the argument loop in Config::parse_args.  `none`
models the exit(1) taken on an invalid --scaling value. -/
def parse_step (config : Config) (arg : PArg) : Option Config :=
  match arg with
  | .output s => some { config with outputs := config.outputs ++ [s] }
  | .noLoop => some { config with loop := false }
  | .noHardwareDecode => some { config with hardware_decode := false }
  | .volume vol =>
      if cpp_max 0 (cpp_min 1 (if vol > 1 then vol / 100 else vol)) > 0
          ∧ config.silent = false then
        some { config with
                volume := cpp_max 0 (cpp_min 1 (if vol > 1 then vol / 100 else vol)),
                mute_audio := false }
      else
        some { config with
                volume := cpp_max 0 (cpp_min 1 (if vol > 1 then vol / 100 else vol)) }
  | .mpvOptions s => some { config with mpv_options := s }
  | .fps n => some { config with fps := n }
  | .silent => some { config with silent := true, mute_audio := true }
  | .noautomute => some { config with noautomute := true }
  | .scaling s =>
      if s = "stretch" ∨ s = "fit" ∨ s = "fill" ∨ s = "default" then
        some { config with scaling := s }
      else
        none
  | .screenRoot s => some { config with screen_root := s, outputs := [s] }
  | .bg s =>
      if config.media_path = "" then
        some { config with background_id := s, media_path := s }
      else
        some { config with background_id := s }
  | .forceX11 => some { config with force_x11 := true }
  | .forceWayland => some { config with force_wayland := true }
  | .verbose => some { config with verbose := true }
  | .daemonFlag => some { config with daemon := true }
  | .logLevel s => some { config with log_level := s }
  | .noAdaptiveFps => some { config with adaptive_fps := false }
  | .media s => some { config with media_path := s }

/-- The argument loop of Config::parse_args, folded over the token list. -/
def parse_fold (config : Config) : List PArg → Option Config
  | [] => some config
  | a :: rest =>
      match parse_step config a with
      | none => none
      | some c => parse_fold c rest

/-- Config::parse_args: fold the loop, then reject an empty media path
(exit(1)) and default the output list to the sentinel "ALL". -/
def parse_args (args : List PArg) : Option Config :=
  (parse_fold {} args).bind fun c =>
    if c.media_path = "" then none
    else if c.outputs = [] then some { c with outputs := ["ALL"] }
    else some c

/-- main.cpp lines 107-110: final_mute_audio starts as config.mute_audio
and is forced to true when config.silent is set. -/
def final_mute_audio (config : Config) : Bool :=
  if config.silent then true else config.mute_audio

/-- main.cpp line 164: frame_duration = milliseconds(1000 / config.fps).
The raw integer division as written in the source. -/
def main_frame_duration (fps : Int) : Int := 1000 / fps

/-- The frame-interval computation with its partiality made explicit:
C++ integer division by zero is undefined behaviour, so the computation
is meaningful only for a nonzero divisor; `none` marks the
division-by-zero branch. -/
def frame_duration_of (fps : Int) : Option Int :=
  if fps = 0 then none else some (1000 / fps)

/-! ### Helper lemmas on parsing -/

/-- parse_step never clears the silent flag once set. -/
lemma parse_step_preserves_silent (c c' : Config) (a : PArg)
    (hs : c.silent = true) (h : parse_step c a = some c') : c'.silent = true := by
  cases a <;> simp only [parse_step] at h <;>
    (try split at h) <;> (try split at h) <;>
    (try cases h) <;> (first | exact hs | rfl)

/-- parse_fold never clears the silent flag once set. -/
lemma parse_fold_preserves_silent :
    ∀ (args : List PArg) (c c' : Config), c.silent = true →
      parse_fold c args = some c' → c'.silent = true := by
  intro args
  induction args with
  | nil => intro c c' hs h; simp [parse_fold] at h; exact h ▸ hs
  | cons a rest ih =>
      intro c c' hs h
      simp only [parse_fold] at h
      cases hstep : parse_step c a with
      | none => rw [hstep] at h; exact absurd h (by simp)
      | some c1 =>
          rw [hstep] at h
          exact ih c1 c' (parse_step_preserves_silent c c1 a hs hstep) h

/-- Once a silent token is seen, every config the fold can produce has
silent set. -/
lemma parse_fold_silent_mem :
    ∀ (args : List PArg) (c c' : Config), PArg.silent ∈ args →
      parse_fold c args = some c' → c'.silent = true := by
  intro args
  induction args with
  | nil => intro c c' hmem; simp at hmem
  | cons a rest ih =>
      intro c c' hmem h
      simp only [parse_fold] at h
      cases hstep : parse_step c a with
      | none => rw [hstep] at h; exact absurd h (by simp)
      | some c1 =>
          rw [hstep] at h
          rcases List.mem_cons.mp hmem with heq | hmem'
          · have hs1 : c1.silent = true := by
              subst heq; simp [parse_step] at hstep; subst hstep; rfl
            exact parse_fold_preserves_silent rest c1 c' hs1 h
          · exact ih c1 c' hmem' h

/-- The source's std::min coincides with the mathematical min on the exact
values involved. -/
lemma cpp_min_eq (a b : ℚ) : cpp_min a b = min a b := by
  rw [cpp_min, min_def]
  by_cases h : b < a
  · rw [if_pos h, if_neg (not_le.mpr h)]
  · rw [if_neg h, if_pos (not_lt.mp h)]

/-- The source's std::max coincides with the mathematical max on the exact
values involved. -/
lemma cpp_max_eq (a b : ℚ) : cpp_max a b = max a b := by
  rw [cpp_max, max_def]
  by_cases h : a < b
  · rw [if_pos h, if_pos h.le]
  · rw [if_neg h]
    by_cases h2 : a ≤ b
    · rw [if_pos h2]; exact le_antisymm h2 (not_lt.mp h)
    · rw [if_neg h2]

/-- C7: In any argument order, --volume V with V > 1.0 is read as a
percentage (divided by 100) and the stored volume is clamped to the unit
interval, so --volume 150 stores 1.0; and whenever --silent is present the
final mute state computed by main stays true, regardless of any
volume-implied unmute (--volume 0.3 --silent keeps mute true in either
order). -/
theorem volume_parse_and_silent :
    (∀ (c c' : Config) (v : ℚ), parse_step c (PArg.volume v) = some c' →
        c'.volume = max 0 (min 1 (if v > 1 then v / 100 else v))) ∧
    (∀ (args : List PArg) (c : Config),
        parse_args args = some c → PArg.silent ∈ args → final_mute_audio c = true) ∧
    (parse_args [PArg.media "clip.mp4", PArg.volume 150]).map Config.volume = some 1 ∧
    (parse_args [PArg.media "clip.mp4", PArg.volume (3/10), PArg.silent]).map
      final_mute_audio = some true ∧
    (parse_args [PArg.media "clip.mp4", PArg.silent, PArg.volume (3/10)]).map
      final_mute_audio = some true := by
  refine ⟨fun c c' v h => ?_, fun args c h hmem => ?_, ?_, ?_, ?_⟩
  · rw [← cpp_max_eq, ← cpp_min_eq]
    simp only [parse_step] at h
    by_cases hc : cpp_max 0 (cpp_min 1 (if v > 1 then v / 100 else v)) > 0
        ∧ c.silent = false
    · rw [if_pos hc] at h; cases h; rfl
    · rw [if_neg hc] at h; cases h; rfl
  · simp only [parse_args] at h
    cases hf : parse_fold {} args with
    | none => rw [hf] at h; exact absurd h (by simp)
    | some c0 =>
        rw [hf, Option.some_bind] at h
        have hs0 : c0.silent = true := parse_fold_silent_mem args {} c0 hmem hf
        by_cases hm : c0.media_path = ""
        · rw [if_pos hm] at h; exact absurd h (by simp)
        · rw [if_neg hm] at h
          by_cases ho : c0.outputs = []
          · rw [if_pos ho] at h
            injection h with h
            subst h
            simp [final_mute_audio, hs0]
          · rw [if_neg ho] at h
            injection h with h
            subst h
            simp [final_mute_audio, hs0]
  · have h150 : cpp_max 0 (cpp_min 1 (if (150 : ℚ) > 1 then 150 / 100 else 150)) = 1 := by
      rw [if_pos (by norm_num), cpp_min, if_neg (by norm_num), cpp_max,
          if_pos (by norm_num)]
    simp only [parse_args, parse_fold, parse_step, h150]
    norm_num
    exact ⟨_, ⟨by simp, rfl⟩, rfl⟩
  · have h03 : cpp_max 0 (cpp_min 1 (if (3 : ℚ)/10 > 1 then (3 : ℚ)/10 / 100
        else (3 : ℚ)/10)) = 3/10 := by
      rw [if_neg (by norm_num), cpp_min, if_pos (by norm_num), cpp_max,
          if_pos (by norm_num)]
    simp only [parse_args, parse_fold, parse_step, h03]
    norm_num [final_mute_audio]
    exact ⟨_, ⟨by simp, rfl⟩, Or.inl rfl⟩
  · have h03 : cpp_max 0 (cpp_min 1 (if (3 : ℚ)/10 > 1 then (3 : ℚ)/10 / 100
        else (3 : ℚ)/10)) = 3/10 := by
      rw [if_neg (by norm_num), cpp_min, if_pos (by norm_num), cpp_max,
          if_pos (by norm_num)]
    simp only [parse_args, parse_fold, parse_step, h03]
    norm_num [final_mute_audio]
    exact ⟨_, ⟨by simp, rfl⟩, Or.inl rfl⟩

/-- Evaluates the whole parse of --volume 0.3 --silent to its resulting
config record. -/
lemma parse_args_silent_example :
    parse_args [PArg.media "clip.mp4", PArg.volume (3/10), PArg.silent] =
      some { media_path := "clip.mp4", outputs := ["ALL"], mute_audio := true,
             volume := 3/10, silent := true } := by
  have h03 : cpp_max 0 (cpp_min 1 (if (3 : ℚ)/10 > 1 then (3 : ℚ)/10 / 100
      else (3 : ℚ)/10)) = 3/10 := by
    rw [if_neg (by norm_num), cpp_min, if_pos (by norm_num), cpp_max,
        if_pos (by norm_num)]
  have hf : parse_fold {} [PArg.media "clip.mp4", PArg.volume (3/10), PArg.silent] =
      some { media_path := "clip.mp4", mute_audio := true,
             volume := 3/10, silent := true } := by
    simp only [parse_fold, parse_step, h03]
    norm_num
  rw [parse_args, hf, Option.some_bind]
  rw [if_neg (by simp), if_pos rfl]

/-- Witness for C7: instantiates the silent-overrides part at the concrete
argument list --volume 0.3 --silent. -/
theorem volume_parse_and_silent_check :
    final_mute_audio { media_path := "clip.mp4", outputs := ["ALL"], mute_audio := true,
                       volume := 3/10, silent := true } = true :=
  volume_parse_and_silent.2.1
    [PArg.media "clip.mp4", PArg.volume (3/10), PArg.silent]
    { media_path := "clip.mp4", outputs := ["ALL"], mute_audio := true,
      volume := 3/10, silent := true }
    parse_args_silent_example (by simp)

/-- C10: the CLI stores any --fps value without validation, and the main
loop computes the frame interval as the unguarded integer division
1000 / fps; the computation is well-defined only for fps at least 1 and the
division-by-zero branch (modelled as none) is reachable from the public
interface with --fps 0. -/
theorem fps_division_unguarded :
    (∀ (n : Int) (c : Config), parse_step c (PArg.fps n) = some { c with fps := n }) ∧
    frame_duration_of 0 = none ∧
    (parse_args [PArg.media "clip.mp4", PArg.fps 0]).map
      (fun c => frame_duration_of c.fps) = some none ∧
    (∀ fps : Int, 1 ≤ fps → frame_duration_of fps = some (main_frame_duration fps)) := by
  refine ⟨fun n c => rfl, rfl, by simp [parse_args, parse_fold, parse_step,
      frame_duration_of], fun fps h => ?_⟩
  simp only [frame_duration_of, main_frame_duration]
  rw [if_neg (by omega)]

/-- Witness for C10: the guarded frame interval agrees with the raw
division at the default fps of 30. -/
theorem fps_division_unguarded_check :
    frame_duration_of 30 = some (main_frame_duration 30) :=
  fps_division_unguarded.2.2.2 30 (by decide)

/-! ## GPU surface provider (src/rendering/renderer.cpp) -/

/-- Renderer::FramebufferInfo: a framebuffer and its color texture; GL
names are Nat with 0 the null name (the struct is value-initialized). -/
structure FramebufferInfo where
  fbo : Nat := 0
  texture : Nat := 0
  width : Int := 0
  height : Int := 0
deriving DecidableEq, Repr

/-- The renderer state relevant to the framebuffer cache: the size-keyed
cache, a GL name counter (glGen* returns fresh nonzero names), and a count
of create_framebuffer allocations performed. -/
structure RendererState where
  framebuffer_cache : List ((Int × Int) × FramebufferInfo) := []
  next_gl_name : Nat := 0
  alloc_count : Nat := 0
deriving DecidableEq, Repr

/-- std::map-style lookup in the size-keyed cache (keys are unique because
insertion only happens on a missed lookup). -/
def cache_lookup (cache : List ((Int × Int) × FramebufferInfo)) (key : Int × Int) :
    Option FramebufferInfo :=
  match cache with
  | [] => none
  | (k, v) :: rest => if k = key then some v else cache_lookup rest key

/-- Renderer::create_framebuffer: generates a texture and a framebuffer
name and checks completeness.  `complete` is the oracle for the
glCheckFramebufferStatus result; on failure the names are destroyed and
a value-initialized (null) info is returned, exactly as in the source. -/
def create_framebuffer (complete : Bool) (width height : Int) (st : RendererState) :
    FramebufferInfo × RendererState :=
  let st' := { st with next_gl_name := st.next_gl_name + 2,
                       alloc_count := st.alloc_count + 1 }
  if complete then
    ({ fbo := st.next_gl_name + 2, texture := st.next_gl_name + 1,
       width := width, height := height }, st')
  else
    ({}, st')

/-- Renderer::get_or_create_framebuffer: return the cached target for the
size if present; otherwise create one and cache it only when it is valid
(nonzero fbo). -/
def get_or_create_framebuffer (complete : Bool) (width height : Int)
    (st : RendererState) : FramebufferInfo × RendererState :=
  match cache_lookup st.framebuffer_cache (width, height) with
  | some info => (info, st)
  | none =>
      let r := create_framebuffer complete width height st
      if r.1.fbo ≠ 0 then
        (r.1, { r.2 with framebuffer_cache :=
                  r.2.framebuffer_cache ++ [((width, height), r.1)] })
      else
        (r.1, r.2)

/-- Appending a fresh key to a cache that misses it makes the lookup hit
exactly that entry. -/
lemma cache_lookup_append (cache : List ((Int × Int) × FramebufferInfo))
    (key : Int × Int) (v : FramebufferInfo) (h : cache_lookup cache key = none) :
    cache_lookup (cache ++ [(key, v)]) key = some v := by
  induction cache with
  | nil => simp [cache_lookup]
  | cons kv rest ih =>
      rw [cache_lookup] at h
      rcases kv with ⟨k, w⟩
      by_cases hk : k = key
      · rw [if_pos hk] at h; exact absurd h (by simp)
      · rw [if_neg hk] at h
        rw [List.cons_append, cache_lookup, if_neg hk]
        exact ih h

/-- C2: after a first get_or_create_framebuffer call for a size returns a
valid handle, a second call with the same size returns the identical
handle and leaves the state untouched (in particular no allocation); the
first call on an uncached size performs exactly one allocation, and a call
on a cached size performs none. -/
theorem framebuffer_cache_identity :
    ∀ (ok1 ok2 : Bool) (w h : Int) (st : RendererState),
      ((get_or_create_framebuffer ok1 w h st).1.fbo ≠ 0 →
        get_or_create_framebuffer ok2 w h (get_or_create_framebuffer ok1 w h st).2 =
          ((get_or_create_framebuffer ok1 w h st).1,
           (get_or_create_framebuffer ok1 w h st).2)) ∧
      (cache_lookup st.framebuffer_cache (w, h) = none →
        (get_or_create_framebuffer ok1 w h st).2.alloc_count = st.alloc_count + 1) ∧
      ((cache_lookup st.framebuffer_cache (w, h)).isSome →
        (get_or_create_framebuffer ok1 w h st).2.alloc_count = st.alloc_count) := by
  intro ok1 ok2 w h st
  refine ⟨?_, ?_, ?_⟩
  · intro hvalid
    cases hl : cache_lookup st.framebuffer_cache (w, h) with
    | some info =>
        simp [get_or_create_framebuffer, hl]
    | none =>
        simp only [get_or_create_framebuffer, hl] at hvalid ⊢
        by_cases hz : (create_framebuffer ok1 w h st).1.fbo ≠ 0
        · rw [if_pos hz] at hvalid ⊢
          have hcached : cache_lookup
              ((create_framebuffer ok1 w h st).2.framebuffer_cache ++
                [((w, h), (create_framebuffer ok1 w h st).1)]) (w, h) =
              some (create_framebuffer ok1 w h st).1 := by
            apply cache_lookup_append
            have hsame : (create_framebuffer ok1 w h st).2.framebuffer_cache =
                st.framebuffer_cache := by
              rw [create_framebuffer]; split <;> rfl
            rw [hsame]; exact hl
          simp only [get_or_create_framebuffer, hcached]
        · rw [if_neg hz] at hvalid
          exact absurd hvalid (by simpa using hz)
  · intro hl
    simp only [get_or_create_framebuffer, hl]
    have halloc : (create_framebuffer ok1 w h st).2.alloc_count =
        st.alloc_count + 1 := by
      rw [create_framebuffer]; split <;> rfl
    split <;> simpa using halloc
  · intro hl
    cases hsome : cache_lookup st.framebuffer_cache (w, h) with
    | none => rw [hsome] at hl; exact absurd hl (by simp)
    | some info => simp [get_or_create_framebuffer, hsome]

/-- Witness for C2: a fresh provider asked twice for 1920x1080 returns the
same handle twice, with exactly one allocation. -/
theorem framebuffer_cache_identity_check :
    get_or_create_framebuffer true 1920 1080
        (get_or_create_framebuffer true 1920 1080 {}).2 =
      ((get_or_create_framebuffer true 1920 1080 {}).1,
       (get_or_create_framebuffer true 1920 1080 {}).2) ∧
    (get_or_create_framebuffer true 1920 1080 {}).2.alloc_count = 0 + 1 :=
  ⟨(framebuffer_cache_identity true true 1920 1080 {}).1 (by decide),
   (framebuffer_cache_identity true true 1920 1080 {}).2.1 (by decide)⟩

/-! ## Root-window backend (src/backends/x11_backend.cpp) -/

/-- A monitor snapshot as enumerated by a backend (include/display_manager.h). -/
structure Monitor where
  name : String := ""
  x : Int := 0
  y : Int := 0
  width : Int := 0
  height : Int := 0
  refresh_rate : Int := 60
  primary : Bool := false
deriving DecidableEq, Repr

/-- X11 backend state relevant to set_wallpaper: an open display and the
monitor list produced by detect_monitors. -/
structure X11State where
  display_open : Bool := true
  monitors : List Monitor := []
deriving DecidableEq, Repr

/-- X11Backend::set_wallpaper_all: fails when the display is closed or the
texture-to-pixmap conversion fails (`pixmap_ok` oracle); otherwise installs
the root pixmap once.  The second component counts root-window updates. -/
def x11_set_wallpaper_all (pixmap_ok : Bool) (st : X11State) : Bool × Nat :=
  if st.display_open = false then (false, 0)
  else if pixmap_ok = false then (false, 0)
  else (true, 1)

/-- X11Backend::set_wallpaper: "ALL" goes to set_wallpaper_all; a specific
name is looked up in the monitor list, failure if absent, and otherwise the
call degrades to set_wallpaper_all for the whole root window. -/
def x11_set_wallpaper (pixmap_ok : Bool) (st : X11State) (monitor_name : String) :
    Bool × Nat :=
  if monitor_name = "ALL" then x11_set_wallpaper_all pixmap_ok st
  else
    match st.monitors.find? (fun m => m.name == monitor_name) with
    | none => (false, 0)
    | some _ => x11_set_wallpaper_all pixmap_ok st

/-- Counterexample for C6: with a single monitor DP-1, requesting the
unknown name "foo" returns failure and performs no root-window update,
while set_wallpaper_all succeeds — so set_wallpaper for a specific name
does not always behave as set_wallpaper_all. -/
theorem x11_named_wallpaper_counterexample :
    x11_set_wallpaper true { monitors := [{ name := "DP-1" }] } "foo" = (false, 0) ∧
    x11_set_wallpaper_all true { monitors := [{ name := "DP-1" }] } = (true, 1) ∧
    x11_set_wallpaper true { monitors := [{ name := "DP-1" }] } "foo" ≠
      x11_set_wallpaper_all true { monitors := [{ name := "DP-1" }] } := by
  refine ⟨?_, rfl, ?_⟩ <;> simp [x11_set_wallpaper, x11_set_wallpaper_all,
    List.find?]

/-- C6 (amended): for every name other than "ALL" that matches a detected
monitor, the root-window backend's set_wallpaper degrades to
set_wallpaper_all (the whole root window is updated); a name matching no
monitor returns failure without touching the root window. -/
theorem x11_named_wallpaper_degrades :
    ∀ (pixmap_ok : Bool) (st : X11State) (monitor_name : String),
      monitor_name ≠ "ALL" →
      (((st.monitors.find? (fun m => m.name == monitor_name)).isSome →
          x11_set_wallpaper pixmap_ok st monitor_name =
            x11_set_wallpaper_all pixmap_ok st) ∧
       (st.monitors.find? (fun m => m.name == monitor_name) = none →
          x11_set_wallpaper pixmap_ok st monitor_name = (false, 0))) := by
  intro ok st name hne
  constructor
  · intro hfind
    rw [x11_set_wallpaper, if_neg hne]
    cases hf : st.monitors.find? (fun m => m.name == name) with
    | none => rw [hf] at hfind; exact absurd hfind (by simp)
    | some m => rfl
  · intro hfind
    rw [x11_set_wallpaper, if_neg hne, hfind]

/-- Witness for C6 (amended): the known name DP-1 degrades to the
whole-root-window update. -/
theorem x11_named_wallpaper_degrades_check :
    x11_set_wallpaper true { monitors := [{ name := "DP-1" }] } "DP-1" =
      x11_set_wallpaper_all true { monitors := [{ name := "DP-1" }] } :=
  (x11_named_wallpaper_degrades true { monitors := [{ name := "DP-1" }] } "DP-1"
    (by decide)).1 (by decide)

/-! ## Compositor backend (src/backends/wayland_backend.cpp) -/

/-- WaylandSurface (include/wayland_backend.h): pointer fields are
modelled as presence booleans; `frame_callback` is true while a frame
callback is outstanding. -/
structure WaylandSurface where
  egl_window : Bool := false
  egl_surface : Bool := false
  frame_callback : Bool := false
  width : Int := 0
  height : Int := 0
  scale : Int := 1
  configured : Bool := false
  rendering : Bool := false
deriving DecidableEq, Repr

/-- Environment oracle for one render_to_surface call: whether a renderer
is attached, whether EGL surface creation succeeds, and the result of
Renderer::render_texture_to_surface. -/
structure RenderOracle where
  has_renderer : Bool := true
  egl_create_ok : Bool := true
  render_ok : Bool := true
deriving DecidableEq, Repr

/-- WaylandBackend::render_to_surface.  Returns the updated surface and
the number of buffer commits (presents) issued, following the guards of
the source in order: not configured / no EGL window, no renderer, already
rendering or frame callback pending, EGL surface creation failure; on a
successful render a frame callback is requested and the surface committed
once. -/
def render_to_surface (o : RenderOracle) (s : WaylandSurface) :
    WaylandSurface × Nat :=
  if ¬(s.configured = true ∧ s.egl_window = true) then (s, 0)
  else if o.has_renderer = false then (s, 0)
  else if s.rendering = true ∨ s.frame_callback = true then (s, 0)
  else if s.egl_surface = false ∧ o.egl_create_ok = false then (s, 0)
  else if o.render_ok = true then
    ({ s with egl_surface := true, rendering := false, frame_callback := true }, 1)
  else
    ({ s with egl_surface := true, rendering := false }, 0)

/-- WaylandBackend::frame_callback_done: destroys the callback and clears
the outstanding marker. -/
def frame_callback_done (s : WaylandSurface) : WaylandSurface :=
  { s with frame_callback := false }

/-- A render request on a surface that is mid-render or has an outstanding
frame callback is silently dropped: no state change, no commit. -/
lemma render_to_surface_dropped (o : RenderOracle) (s : WaylandSurface)
    (h : s.rendering = true ∨ s.frame_callback = true) :
    render_to_surface o s = (s, 0) := by
  rw [render_to_surface]
  by_cases h1 : ¬(s.configured = true ∧ s.egl_window = true)
  · rw [if_pos h1]
  · rw [if_neg h1]
    by_cases h2 : o.has_renderer = false
    · rw [if_pos h2]
    · rw [if_neg h2, if_pos h]

/-- C1: at most one presentation is in flight per compositor surface — a
render call while the surface is rendering or a frame callback is
outstanding performs no present and leaves the surface unchanged; a render
call never clears the outstanding marker itself; only frame_callback_done
clears it; and once cleared, a render with a working environment presents
exactly once. -/
theorem wayland_single_inflight_present :
    (∀ (o : RenderOracle) (s : WaylandSurface),
        s.rendering = true ∨ s.frame_callback = true →
        render_to_surface o s = (s, 0)) ∧
    (∀ (o : RenderOracle) (s : WaylandSurface), s.frame_callback = true →
        (render_to_surface o s).1.frame_callback = true) ∧
    (∀ s : WaylandSurface, (frame_callback_done s).frame_callback = false) ∧
    (∀ s : WaylandSurface, s.configured = true → s.egl_window = true →
        s.rendering = false →
        (render_to_surface {} (frame_callback_done s)).2 = 1) := by
  refine ⟨render_to_surface_dropped, ?_, fun s => rfl, ?_⟩
  · intro o s h
    rw [render_to_surface_dropped o s (Or.inr h)]
    exact h
  · intro s hc he hr
    rw [render_to_surface]
    rw [if_neg (by simp [frame_callback_done, hc, he])]
    rw [if_neg (by simp)]
    rw [if_neg (by simp [frame_callback_done, hr])]
    rw [if_neg (by simp)]
    rw [if_pos rfl]

/-- Witness for C1: a surface with a pending frame callback drops the
render, and after the callback fires the next render presents once. -/
theorem wayland_single_inflight_present_check :
    render_to_surface {}
        { configured := true, egl_window := true, frame_callback := true } =
      ({ configured := true, egl_window := true, frame_callback := true }, 0) ∧
    (render_to_surface {} (frame_callback_done
        { configured := true, egl_window := true, frame_callback := true })).2 = 1 :=
  ⟨wayland_single_inflight_present.1 {}
      { configured := true, egl_window := true, frame_callback := true }
      (Or.inr rfl),
   wayland_single_inflight_present.2.2.2
      { configured := true, egl_window := true, frame_callback := true }
      rfl rfl rfl⟩

/-- WaylandOutput (include/wayland_backend.h): protocol handles dropped;
`done` is set by the wl_output done event. -/
structure WaylandOutput where
  name : String := ""
  description : String := ""
  x : Int := 0
  y : Int := 0
  width : Int := 0
  height : Int := 0
  scale : Int := 1
  done : Bool := false
deriving DecidableEq, Repr

/-- WaylandBackend::generate_output_name applied to the i-th output of the
backend's output list (the source iterates with pointer identity; the index
plays that role here). -/
def generate_output_name (outputs : List WaylandOutput) (i : Nat) : String :=
  let o := outputs.getD i {}
  if o.name ≠ "" ∧ o.name ≠ "Unknown" then o.name
  else if outputs.length = 1 then "HDMI-A-1"
  else
    let base := "OUTPUT-" ++ toString o.width ++ "x" ++ toString o.height
    let base2 := if o.x ≠ 0 ∨ o.y ≠ 0 then
        base ++ "-" ++ toString o.x ++ "+" ++ toString o.y
      else base
    let index := ((outputs.take i).filter (fun other =>
        other.width == o.width && other.height == o.height &&
        other.x == o.x && other.y == o.y)).length
    if index > 0 then base2 ++ "-" ++ toString index else base2

/-- The accumulator loop of WaylandBackend::get_monitors, indexed over
output positions; outputs whose done event has not arrived are skipped,
and the first collected monitor is marked primary. -/
def get_monitors_go (outputs : List WaylandOutput) (idxs : List Nat)
    (monitors : List Monitor) : List Monitor :=
  match idxs with
  | [] => monitors
  | i :: rest =>
      let o := outputs.getD i {}
      if o.done = true then
        get_monitors_go outputs rest (monitors ++
          [{ name := generate_output_name outputs i, x := o.x, y := o.y,
             width := o.width, height := o.height, refresh_rate := 60,
             primary := monitors.isEmpty }])
      else get_monitors_go outputs rest monitors

/-- WaylandBackend::get_monitors. -/
def wl_get_monitors (outputs : List WaylandOutput) : List Monitor :=
  get_monitors_go outputs (List.range outputs.length) []

/-- The names logged by the error branch of WaylandBackend::set_wallpaper:
it iterates over all registered outputs, with no done filter. -/
def available_output_names (outputs : List WaylandOutput) : List String :=
  (List.range outputs.length).map (generate_output_name outputs)

/-- WaylandBackend::find_output_by_name: first output whose raw XDG name
or generated name matches. -/
def find_output_by_name (outputs : List WaylandOutput) (name : String) : Option Nat :=
  (List.range outputs.length).find? (fun i =>
    (outputs.getD i {}).name == name || generate_output_name outputs i == name)

/-- Backend state used by the presentation paths: the registered outputs
and the surface list. -/
structure WlBackendState where
  outputs : List WaylandOutput := []
  surfaces : List WaylandSurface := []
deriving DecidableEq, Repr

/-- Oracle for create_surface_for_output: protocol object creation success
and the size delivered by the configure event during the creation
roundtrip (none if no configure arrived). -/
structure SurfaceOracle where
  create_ok : Bool := true
  configure : Option (Int × Int) := some (1920, 1080)
deriving DecidableEq, Repr

/-- WaylandBackend::create_surface_for_output: on success the new surface
is appended to the surface list; the configure event delivered during the
creation roundtrip sets its size, marks it configured and creates its EGL
window. -/
def create_surface_for_output (so : SurfaceOracle) (st : WlBackendState)
    (outIdx : Nat) : Option Nat × WlBackendState :=
  if so.create_ok = false then (none, st)
  else
    let s : WaylandSurface :=
      match so.configure with
      | some (w, h) => { configured := true, egl_window := true, width := w, height := h }
      | none => {}
    (some st.surfaces.length, { st with surfaces := st.surfaces ++ [s] })

/-- The linear scan inside find_surface_for_output: index of the first
configured surface. -/
def find_configured (surfaces : List WaylandSurface) : Option Nat :=
  match surfaces with
  | [] => none
  | s :: rest =>
      if s.configured = true then some 0
      else (find_configured rest).map (· + 1)

/-- WaylandBackend::find_surface_for_output: returns the first configured
surface in the backend's surface list; the requested output parameter is
not consulted (as in the source). -/
def find_surface_for_output (output : Nat) (surfaces : List WaylandSurface) :
    Option Nat :=
  find_configured surfaces

/-- WaylandBackend::render_to_output.  Result is ((success, surface index
presented to, commits issued), new state). -/
def render_to_output (so : SurfaceOracle) (ro : RenderOracle)
    (st : WlBackendState) (outIdx : Nat) :
    (Bool × Option Nat × Nat) × WlBackendState :=
  if (st.outputs.getD outIdx {}).done = false then ((false, none, 0), st)
  else
    match find_surface_for_output outIdx st.surfaces with
    | some i =>
        ((true, some i, (render_to_surface ro (st.surfaces.getD i {})).2),
         { st with surfaces :=
            st.surfaces.set i (render_to_surface ro (st.surfaces.getD i {})).1 })
    | none =>
        match create_surface_for_output so st outIdx with
        | (none, st') => ((false, none, 0), st')
        | (some i, st') =>
            ((true, some i, (render_to_surface ro (st'.surfaces.getD i {})).2),
             { st' with surfaces :=
                st'.surfaces.set i (render_to_surface ro (st'.surfaces.getD i {})).1 })

/-- The loop of WaylandBackend::set_wallpaper_all over output indices;
outputs without a done event are skipped; the trace records the surface
index each render_to_output presented to. -/
def wl_set_wallpaper_all_go (so : SurfaceOracle) (ro : RenderOracle)
    (st : WlBackendState) (idxs : List Nat) (success : Bool)
    (tr : List (Option Nat)) : Bool × WlBackendState × List (Option Nat) :=
  match idxs with
  | [] => (success, st, tr)
  | idx :: rest =>
      if (st.outputs.getD idx {}).done = true then
        wl_set_wallpaper_all_go so ro (render_to_output so ro st idx).2 rest
          (success && (render_to_output so ro st idx).1.1)
          (tr ++ [(render_to_output so ro st idx).1.2.1])
      else
        wl_set_wallpaper_all_go so ro st rest success tr

/-- WaylandBackend::set_wallpaper_all. -/
def wl_set_wallpaper_all (so : SurfaceOracle) (ro : RenderOracle)
    (st : WlBackendState) : Bool × WlBackendState × List (Option Nat) :=
  wl_set_wallpaper_all_go so ro st (List.range st.outputs.length) true []

/-- WaylandBackend::set_wallpaper.  Result is ((success, names logged by
the not-found error branch), new state). -/
def wl_set_wallpaper (so : SurfaceOracle) (ro : RenderOracle)
    (st : WlBackendState) (monitor_name : String) :
    (Bool × List String) × WlBackendState :=
  if monitor_name = "ALL" then
    let r := wl_set_wallpaper_all so ro st
    ((r.1, []), r.2.1)
  else
    match find_output_by_name st.outputs monitor_name with
    | none => ((false, available_output_names st.outputs), st)
    | some i =>
        let r := render_to_output so ro st i
        ((r.1.1, []), r.2)

/-! ### C8: error-branch names versus get_monitors -/

/-- The names of the monitors collected by the get_monitors loop: the
accumulated names followed by the generated names of the done outputs
among the remaining indices. -/
lemma get_monitors_go_names (outputs : List WaylandOutput) :
    ∀ (idxs : List Nat) (acc : List Monitor),
      (get_monitors_go outputs idxs acc).map Monitor.name =
        acc.map Monitor.name ++
          (idxs.filter (fun i => (outputs.getD i {}).done)).map
            (generate_output_name outputs) := by
  intro idxs
  induction idxs with
  | nil => intro acc; simp [get_monitors_go]
  | cons i rest ih =>
      intro acc
      simp only [get_monitors_go]
      by_cases hd : (outputs.getD i {}).done = true
      · rw [if_pos hd, ih]
        rw [List.filter_cons, if_pos hd]
        simp
      · rw [if_neg hd, ih]
        rw [List.filter_cons, if_neg hd]

/-- Counterexample for C8: with one registered output named DP-1 whose
done event has not arrived, requesting the unknown name "foo" fails and
logs DP-1, while get_monitors returns no monitor at all — the two name
sets differ. -/
theorem wayland_error_names_counterexample :
    (wl_set_wallpaper {} {} { outputs := [{ name := "DP-1" }] } "foo").1.1 = false ∧
    (wl_set_wallpaper {} {} { outputs := [{ name := "DP-1" }] } "foo").1.2 =
      ["DP-1"] ∧
    (wl_get_monitors [{ name := "DP-1" }]).map Monitor.name = [] ∧
    (["DP-1"] : List String) ≠ ([] : List String) := by decide

/-- C8 (amended): on the compositor backend, set_wallpaper with a name
matching no output returns failure and logs the generated names of all
registered outputs; this logged list equals get_monitors' name list
whenever every registered output has received its done event. -/
theorem wayland_error_names_match :
    ∀ (so : SurfaceOracle) (ro : RenderOracle) (st : WlBackendState) (name : String),
      name ≠ "ALL" →
      find_output_by_name st.outputs name = none →
      (∀ o ∈ st.outputs, o.done = true) →
      (wl_set_wallpaper so ro st name).1.1 = false ∧
      (wl_set_wallpaper so ro st name).1.2 =
        (wl_get_monitors st.outputs).map Monitor.name := by
  intro so ro st name hne hfind hdone
  have hfilter : (List.range st.outputs.length).filter
      (fun i => (st.outputs.getD i {}).done) = List.range st.outputs.length := by
    rw [List.filter_eq_self]
    intro i hi
    have hlt : i < st.outputs.length := List.mem_range.mp hi
    rw [List.getD_eq_getElem st.outputs {} hlt]
    exact hdone _ (List.getElem_mem hlt)
  constructor
  · simp [wl_set_wallpaper, hne, hfind]
  · simp only [wl_set_wallpaper, if_neg hne, hfind]
    show available_output_names st.outputs = _
    rw [wl_get_monitors, get_monitors_go_names, hfilter]
    simp [available_output_names]

/-- Witness for C8 (amended): a single done output named DP-1, missing
name "foo" — the logged list equals the get_monitors name list. -/
theorem wayland_error_names_match_check :
    (wl_set_wallpaper {} {} { outputs := [{ name := "DP-1", done := true }] }
        "foo").1.1 = false ∧
    (wl_set_wallpaper {} {} { outputs := [{ name := "DP-1", done := true }] }
        "foo").1.2 =
      (wl_get_monitors [{ name := "DP-1", done := true }]).map Monitor.name :=
  wayland_error_names_match {} {} { outputs := [{ name := "DP-1", done := true }] }
    "foo" (by decide) (by decide) (by decide)

/-! ### C9: a single configured surface serves every output -/

/-- render_to_surface never changes the configured flag. -/
lemma render_to_surface_configured (o : RenderOracle) (s : WaylandSurface) :
    (render_to_surface o s).1.configured = s.configured := by
  rw [render_to_surface]
  split
  · rfl
  · split
    · rfl
    · split
      · rfl
      · split
        · rfl
        · split <;> rfl

/-- The surface found by find_configured is configured. -/
lemma find_configured_get :
    ∀ (ss : List WaylandSurface) (i : Nat),
      find_configured ss = some i → (ss.getD i {}).configured = true := by
  intro ss
  induction ss with
  | nil => intro i h; simp [find_configured] at h
  | cons s rest ih =>
      intro i h
      rw [find_configured] at h
      by_cases hc : s.configured = true
      · rw [if_pos hc] at h
        injection h with h
        subst h
        exact hc
      · rw [if_neg hc] at h
        cases hf : find_configured rest with
        | none => rw [hf] at h; simp at h
        | some j =>
            rw [hf] at h
            simp only [Option.map_some'] at h
            injection h with h
            subst h
            exact ih j hf

/-- Replacing the surface that find_configured found with another
configured surface keeps it the first configured one. -/
lemma find_configured_set :
    ∀ (ss : List WaylandSurface) (i : Nat) (s' : WaylandSurface),
      find_configured ss = some i → s'.configured = true →
      find_configured (ss.set i s') = some i := by
  intro ss
  induction ss with
  | nil => intro i s' h _; simp [find_configured] at h
  | cons s rest ih =>
      intro i s' h hs'
      rw [find_configured] at h
      by_cases hc : s.configured = true
      · rw [if_pos hc] at h
        injection h with h
        subst h
        show find_configured (s' :: rest) = some 0
        rw [find_configured, if_pos hs']
      · rw [if_neg hc] at h
        cases hf : find_configured rest with
        | none => rw [hf] at h; simp at h
        | some j =>
            rw [hf] at h
            simp only [Option.map_some'] at h
            injection h with h
            subst h
            show find_configured (s :: rest.set j s') = some (j + 1)
            rw [find_configured, if_neg hc, ih j s' hf hs']
            rfl

/-- On a done output with an existing configured surface, render_to_output
presents to that surface, creates nothing, succeeds, and preserves the
outputs and the position of the first configured surface. -/
lemma render_to_output_found (so : SurfaceOracle) (ro : RenderOracle)
    (st : WlBackendState) (outIdx i : Nat)
    (hdone : (st.outputs.getD outIdx {}).done = true)
    (hfind : find_configured st.surfaces = some i) :
    (render_to_output so ro st outIdx).1.2.1 = some i ∧
    (render_to_output so ro st outIdx).2.surfaces.length = st.surfaces.length ∧
    find_configured (render_to_output so ro st outIdx).2.surfaces = some i ∧
    (render_to_output so ro st outIdx).2.outputs = st.outputs ∧
    (render_to_output so ro st outIdx).1.1 = true := by
  rw [render_to_output, if_neg (by rw [hdone]; simp)]
  simp only [find_surface_for_output, hfind]
  refine ⟨by simp, by simp, ?_, by simp, by simp⟩
  apply find_configured_set _ _ _ hfind
  rw [render_to_surface_configured]
  exact find_configured_get st.surfaces i hfind

/-- Invariant of the set_wallpaper_all loop: with a configured surface at
index i, every presented surface recorded in the trace is i and the
surface count never changes. -/
lemma wl_set_all_go_inv (so : SurfaceOracle) (ro : RenderOracle) (i : Nat) :
    ∀ (idxs : List Nat) (st : WlBackendState) (success : Bool)
      (tr : List (Option Nat)),
      find_configured st.surfaces = some i →
      (∀ x ∈ tr, x = some i) →
      (∀ x ∈ (wl_set_wallpaper_all_go so ro st idxs success tr).2.2, x = some i) ∧
      (wl_set_wallpaper_all_go so ro st idxs success tr).2.1.surfaces.length =
        st.surfaces.length := by
  intro idxs
  induction idxs with
  | nil =>
      intro st success tr hf htr
      exact ⟨htr, rfl⟩
  | cons idx rest ih =>
      intro st success tr hf htr
      rw [wl_set_wallpaper_all_go]
      by_cases hd : (st.outputs.getD idx {}).done = true
      · rw [if_pos hd]
        obtain ⟨h1, h2, h3, _, _⟩ := render_to_output_found so ro st idx i hd hf
        have htr' : ∀ x ∈ tr ++ [(render_to_output so ro st idx).1.2.1],
            x = some i := by
          intro x hx
          rcases List.mem_append.mp hx with hx | hx
          · exact htr x hx
          · rw [List.mem_singleton.mp hx, h1]
        obtain ⟨ha, hb⟩ := ih (render_to_output so ro st idx).2 _ _ h3 htr'
        exact ⟨ha, hb.trans h2⟩
      · rw [if_neg hd]
        exact ih st success tr hf htr

/-- C9: the pre-present surface lookup ignores which output was requested;
once a configured surface exists, render_to_output for any done output
presents to that same first configured surface without creating another,
and set_wallpaper_all over all outputs presents only to it, leaving the
surface count unchanged. -/
theorem single_surface_reuse :
    (∀ (o1 o2 : Nat) (ss : List WaylandSurface),
        find_surface_for_output o1 ss = find_surface_for_output o2 ss) ∧
    (∀ (so : SurfaceOracle) (ro : RenderOracle) (st : WlBackendState)
        (outIdx i : Nat),
        (st.outputs.getD outIdx {}).done = true →
        find_configured st.surfaces = some i →
        (render_to_output so ro st outIdx).1.2.1 = some i ∧
        (render_to_output so ro st outIdx).2.surfaces.length =
          st.surfaces.length) ∧
    (∀ (so : SurfaceOracle) (ro : RenderOracle) (st : WlBackendState) (i : Nat),
        find_configured st.surfaces = some i →
        (∀ x ∈ (wl_set_wallpaper_all so ro st).2.2, x = some i) ∧
        (wl_set_wallpaper_all so ro st).2.1.surfaces.length =
          st.surfaces.length) := by
  refine ⟨fun o1 o2 ss => rfl, ?_, ?_⟩
  · intro so ro st outIdx i hd hf
    obtain ⟨h1, h2, _, _, _⟩ := render_to_output_found so ro st outIdx i hd hf
    exact ⟨h1, h2⟩
  · intro so ro st i hf
    exact wl_set_all_go_inv so ro i (List.range st.outputs.length) st true [] hf
      (by simp)

/-- Witness for C9: one done output and one configured surface — the
render targets surface 0 and no second surface appears. -/
theorem single_surface_reuse_check :
    (render_to_output {} {}
        { outputs := [{ done := true }],
          surfaces := [{ configured := true, egl_window := true }] } 0).1.2.1 =
      some 0 ∧
    (render_to_output {} {}
        { outputs := [{ done := true }],
          surfaces := [{ configured := true, egl_window := true }] } 0).2.surfaces.length =
      ([{ configured := true, egl_window := true }] : List WaylandSurface).length :=
  single_surface_reuse.2.1 {} {}
    { outputs := [{ done := true }],
      surfaces := [{ configured := true, egl_window := true }] } 0 0
    (by decide) (by decide)

/-! ## Orchestration loop (src/core/main.cpp, lines 180-361) -/

/-- The loop-relevant configuration snapshot: fps, adaptive flag, the
final mute decision, whether each detector ended up enabled, and the
output fan-out list. -/
structure MainCfg where
  fps : Int := 30
  adaptive_fps : Bool := true
  final_mute : Bool := false
  audio_enabled : Bool := true
  fullscreen_enabled : Bool := false
  outputs : List String := ["ALL"]
deriving DecidableEq, Repr

/-- The mutable loop state across ticks (times in milliseconds on the
steady clock; last_render_time is the function-static of main.cpp 244). -/
structure LoopState where
  last_frame_time : Int := 0
  last_event_time : Int := 0
  last_audio_check_time : Int := 0
  last_render_time : Int := 0
  was_muted_by_detector : Bool := false
  needs_redraw : Bool := true
  is_static_content : Bool := false
  is_paused_by_fullscreen : Bool := false
  last_static_check : Int := 0
deriving DecidableEq, Repr

/-- The environment one tick observes: the clock and the answers of the
detectors, the media engine and the GL calls made during the tick. -/
structure TickIn where
  now : Int := 0
  fullscreen_active : Bool := false
  other_audio_playing : Bool := false
  has_new_frame : Bool := false
  duration : ℚ := 0
  fbo_ok : Bool := true
  render_ok : Bool := true
  has_video : Bool := true
  is_playing : Bool := true
deriving DecidableEq, Repr

/-- The externally visible effects of one tick: event pumps, mute
property writes (true = mute on), whether the render branch was entered,
mpv render_frame calls, set_wallpaper fan-out calls, and whether the tick
took the fullscreen-pause 100 ms sleep. -/
structure TickOut where
  event_pumps : Nat := 0
  mute_calls : List Bool := []
  render_entered : Bool := false
  mpv_renders : Nat := 0
  wallpaper_calls : Nat := 0
  paused_sleep : Bool := false
deriving DecidableEq, Repr

/-- main.cpp 193-206: the fullscreen transition check — entering pause
clears needs_redraw, leaving pause forces it. -/
def tick_fullscreen (cfg : MainCfg) (st : LoopState) (i : TickIn) : LoopState :=
  if cfg.fullscreen_enabled = true then
    if i.fullscreen_active = true ∧ st.is_paused_by_fullscreen = false then
      { st with is_paused_by_fullscreen := true, needs_redraw := false }
    else if i.fullscreen_active = false ∧ st.is_paused_by_fullscreen = true then
      { st with is_paused_by_fullscreen := false, needs_redraw := true }
    else st
  else st

/-- main.cpp 222-238: the auto-mute reconciliation, returning the mute
property writes it issues. -/
def tick_audio (cfg : MainCfg) (st : LoopState) (i : TickIn) :
    LoopState × List Bool :=
  if i.now - st.last_audio_check_time ≥ 100 ∧ cfg.audio_enabled = true ∧
      cfg.final_mute = false then
    if i.other_audio_playing = true ∧ st.was_muted_by_detector = false then
      ({ st with was_muted_by_detector := true, last_audio_check_time := i.now },
       [true])
    else if i.other_audio_playing = false ∧ st.was_muted_by_detector = true then
      ({ st with was_muted_by_detector := false, last_audio_check_time := i.now },
       [false])
    else
      ({ st with last_audio_check_time := i.now }, [])
  else (st, [])

/-- main.cpp 257-266: the periodic static-content classification (every
5 s, content with duration at most 0.1 is classified static). -/
def tick_static_update (cfg : MainCfg) (st : LoopState) (i : TickIn) : LoopState :=
  if cfg.adaptive_fps = true ∧ i.now - st.last_static_check > 5000 then
    { st with is_static_content := decide (i.duration ≤ 1/10),
              last_static_check := i.now }
  else st

/-- main.cpp 257-346: the inside of the render branch, entered with
last_render_time already advanced (st5).  Result effects are
(render_entered, mpv render_frame calls, set_wallpaper calls). -/
def tick_render_body (cfg : MainCfg) (st5 : LoopState) (i : TickIn)
    (elapsed : Int) : LoopState × (Bool × Nat × Nat) :=
  if cfg.adaptive_fps = true ∧
      (tick_static_update cfg st5 i).is_static_content = true ∧
      i.has_new_frame = false ∧ elapsed < 500 then
    (tick_static_update cfg st5 i, (true, 0, 0))
  else if i.fbo_ok = true then
    if i.render_ok = true then
      if i.has_video = true ∧ i.is_playing = true then
        ({ tick_static_update cfg st5 i with
            needs_redraw := false,
            last_frame_time := i.now },
         (true, 1, cfg.outputs.length))
      else
        ({ tick_static_update cfg st5 i with last_frame_time := i.now },
         (true, 1, 0))
    else
      ({ tick_static_update cfg st5 i with last_frame_time := i.now },
       (true, 1, 0))
  else
    ({ tick_static_update cfg st5 i with last_frame_time := i.now },
     (true, 0, 0))

/-- main.cpp 240-347: render gating (the frame interval, the pending
redraw / new frame test, and the 16 ms skip that applies only without a
new frame) followed by the render body. -/
def tick_render (cfg : MainCfg) (st : LoopState) (i : TickIn) (elapsed : Int) :
    LoopState × (Bool × Nat × Nat) :=
  if elapsed ≥ main_frame_duration cfg.fps ∧
      ((if i.now - st.last_render_time < 16 ∧ i.has_new_frame = false then false
        else st.needs_redraw || i.has_new_frame) = true) then
    tick_render_body cfg { st with last_render_time := i.now } i elapsed
  else
    (st, (false, 0, 0))

/-- One iteration of the main loop (main.cpp 180-361): event pump,
fullscreen check with hard pause, the duplicated event pump, auto-mute,
then the render branch.  The sleep computation has no observable effect
beyond paused_sleep and is omitted. -/
def tick (cfg : MainCfg) (st : LoopState) (i : TickIn) : LoopState × TickOut :=
  -- main.cpp 187-191: first event pump
  let st1 := if i.now - st.last_event_time ≥ 16 then
      { st with last_event_time := i.now } else st
  let p1 : Nat := if i.now - st.last_event_time ≥ 16 then 1 else 0
  -- main.cpp 193-206
  let st2 := tick_fullscreen cfg st1 i
  -- main.cpp 208-213: hard pause skips the rest of the tick
  if st2.is_paused_by_fullscreen = true then
    (st2, { event_pumps := p1, paused_sleep := true })
  else
    -- main.cpp 215-220: duplicated pump, gated by the elapsed computed
    -- at the top of the tick
    let st3 := if i.now - st.last_event_time ≥ 16 then
        { st2 with last_event_time := i.now } else st2
    let p2 : Nat := if i.now - st.last_event_time ≥ 16 then 1 else 0
    -- main.cpp 222-238
    let st4 := (tick_audio cfg st3 i).1
    -- main.cpp 240-347 (elapsed measured from the top-of-tick state)
    let r := tick_render cfg st4 i (i.now - st.last_frame_time)
    (r.1, { event_pumps := p1 + p2,
            mute_calls := (tick_audio cfg st3 i).2,
            render_entered := r.2.1,
            mpv_renders := r.2.2.1,
            wallpaper_calls := r.2.2.2 })

/-- Iterating the loop over a list of per-tick environments. -/
def run_ticks (cfg : MainCfg) (st : LoopState) :
    List TickIn → LoopState × List TickOut
  | [] => (st, [])
  | i :: rest =>
      ((run_ticks cfg (tick cfg st i).1 rest).1,
       (tick cfg st i).2 :: (run_ticks cfg (tick cfg st i).1 rest).2)

/-- All mute property writes issued across a run, in order. -/
def collected_mutes (outs : List TickOut) : List Bool :=
  (outs.map (fun o => o.mute_calls)).flatten

/-- One tick environment of an audio-observation run: 100 ms after
`base`, with the observed "other audio playing" value `b`; no fullscreen
activity, no new frame. -/
def audio_tick_input (base : Int) (b : Bool) : TickIn :=
  { now := base + 100, other_audio_playing := b }

/-- Tick environments in which the audio check fires every tick (100 ms
apart, counted from `base`), the observed "other audio playing" values
being `obs`. -/
def audio_inputs (base : Int) : List Bool → List TickIn
  | [] => []
  | b :: rest => audio_tick_input base b :: audio_inputs (base + 100) rest

/-- The transitions of an observed boolean sequence relative to a current
state: one entry per change of value. -/
def mute_transitions (was : Bool) : List Bool → List Bool
  | [] => []
  | b :: rest => if b = was then mute_transitions was rest else b :: mute_transitions b rest

/-! ### Field-preservation lemmas for the tick phases -/

lemma tick_static_update_was_muted (cfg : MainCfg) (st : LoopState) (i : TickIn) :
    (tick_static_update cfg st i).was_muted_by_detector = st.was_muted_by_detector := by
  rw [tick_static_update]; split <;> rfl

lemma tick_static_update_last_audio (cfg : MainCfg) (st : LoopState) (i : TickIn) :
    (tick_static_update cfg st i).last_audio_check_time = st.last_audio_check_time := by
  rw [tick_static_update]; split <;> rfl

lemma tick_static_update_paused (cfg : MainCfg) (st : LoopState) (i : TickIn) :
    (tick_static_update cfg st i).is_paused_by_fullscreen =
      st.is_paused_by_fullscreen := by
  rw [tick_static_update]; split <;> rfl

lemma tick_render_body_was_muted (cfg : MainCfg) (st5 : LoopState) (i : TickIn)
    (e : Int) : (tick_render_body cfg st5 i e).1.was_muted_by_detector =
      st5.was_muted_by_detector := by
  rw [tick_render_body]
  repeat' split
  all_goals exact tick_static_update_was_muted cfg st5 i

lemma tick_render_body_last_audio (cfg : MainCfg) (st5 : LoopState) (i : TickIn)
    (e : Int) : (tick_render_body cfg st5 i e).1.last_audio_check_time =
      st5.last_audio_check_time := by
  rw [tick_render_body]
  repeat' split
  all_goals exact tick_static_update_last_audio cfg st5 i

lemma tick_render_body_paused (cfg : MainCfg) (st5 : LoopState) (i : TickIn)
    (e : Int) : (tick_render_body cfg st5 i e).1.is_paused_by_fullscreen =
      st5.is_paused_by_fullscreen := by
  rw [tick_render_body]
  repeat' split
  all_goals exact tick_static_update_paused cfg st5 i

/-- The render body always reports the render branch as entered. -/
lemma tick_render_body_entered (cfg : MainCfg) (st5 : LoopState) (i : TickIn)
    (e : Int) : (tick_render_body cfg st5 i e).2.1 = true := by
  rw [tick_render_body]
  repeat' split
  all_goals rfl

lemma tick_render_was_muted (cfg : MainCfg) (st : LoopState) (i : TickIn)
    (e : Int) : (tick_render cfg st i e).1.was_muted_by_detector =
      st.was_muted_by_detector := by
  rw [tick_render]
  split <;> split <;>
    first
      | exact tick_render_body_was_muted cfg _ i e
      | rfl

lemma tick_render_last_audio (cfg : MainCfg) (st : LoopState) (i : TickIn)
    (e : Int) : (tick_render cfg st i e).1.last_audio_check_time =
      st.last_audio_check_time := by
  rw [tick_render]
  split <;> split <;>
    first
      | exact tick_render_body_last_audio cfg _ i e
      | rfl

lemma tick_render_paused (cfg : MainCfg) (st : LoopState) (i : TickIn)
    (e : Int) : (tick_render cfg st i e).1.is_paused_by_fullscreen =
      st.is_paused_by_fullscreen := by
  rw [tick_render]
  split <;> split <;>
    first
      | exact tick_render_body_paused cfg _ i e
      | rfl

/-- If the render branch does not touch needs_redraw, it was entered. -/
lemma tick_render_needs_or (cfg : MainCfg) (st : LoopState) (i : TickIn)
    (e : Int) : (tick_render cfg st i e).1.needs_redraw = st.needs_redraw ∨
      (tick_render cfg st i e).2.1 = true := by
  rw [tick_render]
  split <;> split <;>
    first
      | (right; exact tick_render_body_entered cfg _ i e)
      | (left; rfl)

lemma tick_audio_paused (cfg : MainCfg) (st : LoopState) (i : TickIn) :
    (tick_audio cfg st i).1.is_paused_by_fullscreen =
      st.is_paused_by_fullscreen := by
  rw [tick_audio]
  repeat' split
  all_goals rfl

lemma tick_audio_needs (cfg : MainCfg) (st : LoopState) (i : TickIn) :
    (tick_audio cfg st i).1.needs_redraw = st.needs_redraw := by
  rw [tick_audio]
  repeat' split
  all_goals rfl

lemma tick_audio_last_render (cfg : MainCfg) (st : LoopState) (i : TickIn) :
    (tick_audio cfg st i).1.last_render_time = st.last_render_time := by
  rw [tick_audio]
  repeat' split
  all_goals rfl

lemma tick_audio_last_frame (cfg : MainCfg) (st : LoopState) (i : TickIn) :
    (tick_audio cfg st i).1.last_frame_time = st.last_frame_time := by
  rw [tick_audio]
  repeat' split
  all_goals rfl

/-- tick_audio depends only on the audio-relevant fields of the state. -/
lemma tick_audio_congr (cfg : MainCfg) (st st' : LoopState) (i : TickIn)
    (h1 : st.last_audio_check_time = st'.last_audio_check_time)
    (h2 : st.was_muted_by_detector = st'.was_muted_by_detector) :
    (tick_audio cfg st i).2 = (tick_audio cfg st' i).2 ∧
    (tick_audio cfg st i).1.was_muted_by_detector =
      (tick_audio cfg st' i).1.was_muted_by_detector ∧
    (tick_audio cfg st i).1.last_audio_check_time =
      (tick_audio cfg st' i).1.last_audio_check_time := by
  simp only [tick_audio, h1, h2]
  by_cases hg : i.now - st'.last_audio_check_time ≥ 100 ∧
      cfg.audio_enabled = true ∧ cfg.final_mute = false
  · rw [if_pos hg, if_pos hg]
    by_cases ho : i.other_audio_playing = true ∧ st'.was_muted_by_detector = false
    · rw [if_pos ho, if_pos ho]; exact ⟨rfl, rfl, rfl⟩
    · rw [if_neg ho, if_neg ho]
      by_cases ho2 : i.other_audio_playing = false ∧
          st'.was_muted_by_detector = true
      · rw [if_pos ho2, if_pos ho2]; exact ⟨rfl, rfl, rfl⟩
      · rw [if_neg ho2, if_neg ho2]; exact ⟨rfl, rfl, rfl⟩
  · rw [if_neg hg, if_neg hg]; exact ⟨rfl, h2, h1⟩

lemma tick_fullscreen_not_enabled (cfg : MainCfg) (st : LoopState) (i : TickIn)
    (h : cfg.fullscreen_enabled = false) : tick_fullscreen cfg st i = st := by
  rw [tick_fullscreen, if_neg (by simp [h])]

/-- When no fullscreen pause can trigger (not enabled-and-active, not
already paused), the fullscreen check leaves the state unchanged. -/
lemma tick_fullscreen_id (cfg : MainCfg) (st : LoopState) (i : TickIn)
    (hfs : ¬(cfg.fullscreen_enabled = true ∧ i.fullscreen_active = true))
    (hp : st.is_paused_by_fullscreen = false) : tick_fullscreen cfg st i = st := by
  rw [tick_fullscreen]
  by_cases hen : cfg.fullscreen_enabled = true
  · rw [if_pos hen]
    have hact : ¬i.fullscreen_active = true := fun ha => hfs ⟨hen, ha⟩
    rw [if_neg (fun hc => hact hc.1)]
    rw [if_neg (fun hc => by rw [hp] at hc; exact absurd hc.2 (by simp))]
  · rw [if_neg hen]

/-- While enabled and active, the fullscreen check leaves or puts the
loop in the paused state. -/
lemma tick_fullscreen_pause (cfg : MainCfg) (st : LoopState) (i : TickIn)
    (hen : cfg.fullscreen_enabled = true) (hact : i.fullscreen_active = true) :
    (tick_fullscreen cfg st i).is_paused_by_fullscreen = true := by
  rw [tick_fullscreen, if_pos hen]
  by_cases hp : st.is_paused_by_fullscreen = false
  · rw [if_pos ⟨hact, hp⟩]
  · rw [if_neg (fun hc => hp hc.2)]
    rw [if_neg (fun hc => by rw [hact] at hc; exact absurd hc.1 (by simp))]
    simpa using hp

/-- On the deactivation edge, the fullscreen check clears the pause and
forces a redraw. -/
lemma tick_fullscreen_resume (cfg : MainCfg) (st : LoopState) (i : TickIn)
    (hen : cfg.fullscreen_enabled = true) (hact : i.fullscreen_active = false)
    (hp : st.is_paused_by_fullscreen = true) :
    tick_fullscreen cfg st i =
      { st with is_paused_by_fullscreen := false, needs_redraw := true } := by
  rw [tick_fullscreen, if_pos hen]
  rw [if_neg (fun hc => by rw [hact] at hc; exact absurd hc.1 (by simp))]
  rw [if_pos ⟨hact, hp⟩]

/-- With fullscreen handling out of the way, the tick's mute effects and
audio state are exactly those of the auto-mute reconciliation step, and
the tick never enters the paused state. -/
lemma tick_mute_spec (cfg : MainCfg) (st : LoopState) (i : TickIn)
    (hfs : cfg.fullscreen_enabled = false)
    (hp : st.is_paused_by_fullscreen = false) :
    (tick cfg st i).2.mute_calls = (tick_audio cfg st i).2 ∧
    (tick cfg st i).1.was_muted_by_detector =
      (tick_audio cfg st i).1.was_muted_by_detector ∧
    (tick cfg st i).1.last_audio_check_time =
      (tick_audio cfg st i).1.last_audio_check_time ∧
    (tick cfg st i).1.is_paused_by_fullscreen = false := by
  simp only [tick]
  by_cases he : i.now - st.last_event_time ≥ 16
  · simp only [if_pos he, tick_fullscreen_not_enabled cfg _ i hfs]
    rw [if_neg (by simp [hp])]
    obtain ⟨hc1, hc2, hc3⟩ := tick_audio_congr cfg
      { { st with last_event_time := i.now } with last_event_time := i.now } st i
      rfl rfl
    refine ⟨hc1, ?_, ?_, ?_⟩
    · rw [tick_render_was_muted]; exact hc2
    · rw [tick_render_last_audio]; exact hc3
    · rw [tick_render_paused, tick_audio_paused]; exact hp
  · simp only [if_neg he, tick_fullscreen_not_enabled cfg _ i hfs]
    rw [if_neg (by simp [hp])]
    refine ⟨rfl, ?_, ?_, ?_⟩
    · rw [tick_render_was_muted]
    · rw [tick_render_last_audio]
    · rw [tick_render_paused, tick_audio_paused]; exact hp

/-- Propositional form of the render gate: the code's skip test
(16 ms floor applying only without a new frame) in terms of the three
stated conditions. -/
lemma render_gate_iff (st : LoopState) (i : TickIn) (e fd : Int) :
    (e ≥ fd ∧ ((if i.now - st.last_render_time < 16 ∧ i.has_new_frame = false
        then false else st.needs_redraw || i.has_new_frame) = true)) ↔
    (e ≥ fd ∧ (st.needs_redraw = true ∨ i.has_new_frame = true) ∧
       (i.now - st.last_render_time ≥ 16 ∨ i.has_new_frame = true)) := by
  cases hn : i.has_new_frame
  · by_cases h16 : i.now - st.last_render_time < 16
    · simp [hn, h16, not_le.mpr h16]
    · simp [hn, h16, not_lt.mp h16]
  · simp [hn]

/-- The render branch of a tick is entered iff the frame interval has
elapsed, a redraw is pending or a new frame exists, and the 16 ms floor
passes or a new frame exists. -/
lemma tick_render_entered_iff (cfg : MainCfg) (st : LoopState) (i : TickIn)
    (e : Int) :
    (tick_render cfg st i e).2.1 = true ↔
      (e ≥ main_frame_duration cfg.fps ∧
       (st.needs_redraw = true ∨ i.has_new_frame = true) ∧
       (i.now - st.last_render_time ≥ 16 ∨ i.has_new_frame = true)) := by
  rw [tick_render]
  by_cases hg : e ≥ main_frame_duration cfg.fps ∧
      ((if i.now - st.last_render_time < 16 ∧ i.has_new_frame = false then false
        else st.needs_redraw || i.has_new_frame) = true)
  · rw [if_pos hg]
    exact iff_of_true (tick_render_body_entered cfg _ i e)
      ((render_gate_iff st i e (main_frame_duration cfg.fps)).mp hg)
  · rw [if_neg hg]
    exact iff_of_false (by simp)
      (fun hr => hg ((render_gate_iff st i e (main_frame_duration cfg.fps)).mpr hr))

/-- The same characterization at the level of a whole tick, away from the
fullscreen-pause paths. -/
lemma tick_gate_iff (cfg : MainCfg) (st : LoopState) (i : TickIn)
    (hfs : ¬(cfg.fullscreen_enabled = true ∧ i.fullscreen_active = true))
    (hp : st.is_paused_by_fullscreen = false) :
    ((tick cfg st i).2.render_entered = true ↔
      (i.now - st.last_frame_time ≥ main_frame_duration cfg.fps ∧
       (st.needs_redraw = true ∨ i.has_new_frame = true) ∧
       (i.now - st.last_render_time ≥ 16 ∨ i.has_new_frame = true))) := by
  simp only [tick]
  by_cases he : i.now - st.last_event_time ≥ 16
  · simp only [if_pos he]
    rw [tick_fullscreen_id cfg { st with last_event_time := i.now } i hfs hp]
    rw [if_neg (by simp [hp])]
    rw [tick_render_entered_iff, tick_audio_needs, tick_audio_last_render]
  · simp only [if_neg he]
    rw [tick_fullscreen_id cfg st i hfs hp]
    rw [if_neg (by simp [hp])]
    rw [tick_render_entered_iff, tick_audio_needs, tick_audio_last_render]

/-- When the audio gate fires, tick_audio updates the check time, and
issues exactly one property write iff the observation differs from the
remembered mute state. -/
lemma tick_audio_fire (cfg : MainCfg) (st : LoopState) (i : TickIn)
    (hg : i.now - st.last_audio_check_time ≥ 100) (hae : cfg.audio_enabled = true)
    (hfm : cfg.final_mute = false) :
    tick_audio cfg st i =
      (if i.other_audio_playing = st.was_muted_by_detector then
        ({ st with last_audio_check_time := i.now }, ([] : List Bool))
      else
        ({ st with was_muted_by_detector := i.other_audio_playing,
                   last_audio_check_time := i.now }, [i.other_audio_playing])) := by
  rw [tick_audio, if_pos ⟨hg, hae, hfm⟩]
  cases hb : i.other_audio_playing <;> cases hw : st.was_muted_by_detector <;>
    simp [hb, hw]

lemma collected_mutes_cons (o : TickOut) (os : List TickOut) :
    collected_mutes (o :: os) = o.mute_calls ++ collected_mutes os := by
  simp [collected_mutes]

/-- Folding the loop over ticks whose audio gate fires each time yields
exactly the transition-triggered mute writes. -/
lemma run_ticks_audio (cfg : MainCfg) (hae : cfg.audio_enabled = true)
    (hfm : cfg.final_mute = false) (hfs : cfg.fullscreen_enabled = false) :
    ∀ (obs : List Bool) (st : LoopState), st.is_paused_by_fullscreen = false →
      collected_mutes
          (run_ticks cfg st (audio_inputs st.last_audio_check_time obs)).2 =
        mute_transitions st.was_muted_by_detector obs := by
  intro obs
  induction obs with
  | nil => intro st hp; rfl
  | cons b rest ih =>
      intro st hp
      simp only [audio_inputs, run_ticks]
      rw [collected_mutes_cons]
      obtain ⟨hm, hw, hl, hpz⟩ := tick_mute_spec cfg st
        (audio_tick_input st.last_audio_check_time b) hfs hp
      have h100 : (audio_tick_input st.last_audio_check_time b).now -
          st.last_audio_check_time ≥ 100 := by
        show st.last_audio_check_time + 100 - st.last_audio_check_time ≥ 100
        omega
      have hfire := tick_audio_fire cfg st
        (audio_tick_input st.last_audio_check_time b) h100 hae hfm
      rw [hm, mute_transitions]
      by_cases hbw : b = st.was_muted_by_detector
      · rw [if_pos (show (audio_tick_input st.last_audio_check_time
            b).other_audio_playing = st.was_muted_by_detector from hbw)] at hfire
        have h2 : (tick_audio cfg st
            (audio_tick_input st.last_audio_check_time b)).2 = [] := by rw [hfire]
        have hwa : (tick cfg st
            (audio_tick_input st.last_audio_check_time b)).1.was_muted_by_detector =
            st.was_muted_by_detector := by rw [hw, hfire]
        have hlaa : (tick cfg st
            (audio_tick_input st.last_audio_check_time b)).1.last_audio_check_time =
            st.last_audio_check_time + 100 := by rw [hl, hfire]; rfl
        have hrec := ih (tick cfg st
            (audio_tick_input st.last_audio_check_time b)).1 hpz
        rw [hlaa, hwa] at hrec
        rw [h2, if_pos hbw, List.nil_append, hrec]
      · rw [if_neg (show ¬(audio_tick_input st.last_audio_check_time
            b).other_audio_playing = st.was_muted_by_detector from hbw)] at hfire
        have h2 : (tick_audio cfg st
            (audio_tick_input st.last_audio_check_time b)).2 = [b] := by
          rw [hfire]; rfl
        have hwa : (tick cfg st
            (audio_tick_input st.last_audio_check_time b)).1.was_muted_by_detector =
            b := by rw [hw, hfire]; rfl
        have hlaa : (tick cfg st
            (audio_tick_input st.last_audio_check_time b)).1.last_audio_check_time =
            st.last_audio_check_time + 100 := by rw [hl, hfire]; rfl
        have hrec := ih (tick cfg st
            (audio_tick_input st.last_audio_check_time b)).1 hpz
        rw [hlaa, hwa] at hrec
        rw [h2, if_neg hbw, hrec]
        rfl

/-- Counterexample for C3: at fps 120 with a new engine frame, a render
(mpv render_frame call) occurs only 8 ms after the previous actual render
— the ~16 ms inter-render floor does not hold when the engine reports a
new frame, so it does not cap the render rate at high configured FPS. -/
theorem render_gate_sixteen_ms_counterexample :
    (tick { fps := 120 } { last_render_time := 992, needs_redraw := false }
        { now := 1000, has_new_frame := true }).2.render_entered = true ∧
    (tick { fps := 120 } { last_render_time := 992, needs_redraw := false }
        { now := 1000, has_new_frame := true }).2.mpv_renders = 1 ∧
    ¬((1000 : Int) - 992 ≥ 16) := by decide

/-- C3 (amended): away from the fullscreen pause, a tick enters the
render branch iff the target frame interval (1000/fps ms) has elapsed AND
(a redraw is pending OR the engine reports a new frame) AND (at least
16 ms have passed since the last actual render OR the engine reports a
new frame) — the 16 ms floor applies only when there is no new frame. -/
theorem render_gate_characterization :
    ∀ (cfg : MainCfg) (st : LoopState) (i : TickIn),
      ¬(cfg.fullscreen_enabled = true ∧ i.fullscreen_active = true) →
      st.is_paused_by_fullscreen = false →
      ((tick cfg st i).2.render_entered = true ↔
        (i.now - st.last_frame_time ≥ main_frame_duration cfg.fps ∧
         (st.needs_redraw = true ∨ i.has_new_frame = true) ∧
         (i.now - st.last_render_time ≥ 16 ∨ i.has_new_frame = true))) :=
  fun cfg st i hfs hp => tick_gate_iff cfg st i hfs hp

/-- Witness for C3 (amended): the characterization instantiated on the
initial state of the loop 1000 ms in. -/
theorem render_gate_characterization_check :
    (tick {} {} { now := 1000 }).2.render_entered = true ↔
      ((1000 : Int) - 0 ≥ main_frame_duration 30 ∧
       (true = true ∨ false = true) ∧
       ((1000 : Int) - 0 ≥ 16 ∨ false = true)) :=
  render_gate_characterization {} {} { now := 1000 } (by simp) rfl

/-- C4: while the fullscreen-pause policy is enabled and a fullscreen app
is active, a tick performs no render work at all (no render branch, no
mpv render, no wallpaper call, not even a mute write) and sleeps in the
paused state; and on the tick where fullscreen deactivates, the pause is
cleared and a redraw is forced (pending unless that very tick already
rendered). -/
theorem fullscreen_pause_hard :
    (∀ (cfg : MainCfg) (st : LoopState) (i : TickIn),
        cfg.fullscreen_enabled = true → i.fullscreen_active = true →
        (tick cfg st i).2.mpv_renders = 0 ∧
        (tick cfg st i).2.render_entered = false ∧
        (tick cfg st i).2.wallpaper_calls = 0 ∧
        (tick cfg st i).2.mute_calls = [] ∧
        (tick cfg st i).2.paused_sleep = true ∧
        (tick cfg st i).1.is_paused_by_fullscreen = true) ∧
    (∀ (cfg : MainCfg) (st : LoopState) (i : TickIn),
        cfg.fullscreen_enabled = true → i.fullscreen_active = false →
        st.is_paused_by_fullscreen = true →
        (tick cfg st i).1.is_paused_by_fullscreen = false ∧
        ((tick cfg st i).1.needs_redraw = true ∨
         (tick cfg st i).2.render_entered = true)) := by
  constructor
  · intro cfg st i hen hact
    simp only [tick]
    by_cases he : i.now - st.last_event_time ≥ 16
    · simp only [if_pos he]
      rw [if_pos (tick_fullscreen_pause cfg _ i hen hact)]
      exact ⟨rfl, rfl, rfl, rfl, rfl, tick_fullscreen_pause cfg _ i hen hact⟩
    · simp only [if_neg he]
      rw [if_pos (tick_fullscreen_pause cfg _ i hen hact)]
      exact ⟨rfl, rfl, rfl, rfl, rfl, tick_fullscreen_pause cfg _ i hen hact⟩
  · intro cfg st i hen hact hp
    simp only [tick]
    by_cases he : i.now - st.last_event_time ≥ 16
    · simp only [if_pos he]
      rw [tick_fullscreen_resume cfg { st with last_event_time := i.now } i hen
        hact hp]
      rw [if_neg (by simp)]
      constructor
      · rw [tick_render_paused, tick_audio_paused]
      · rcases tick_render_needs_or cfg _ i (i.now - st.last_frame_time) with h | h
        · left; rw [h, tick_audio_needs]
        · right; exact h
    · simp only [if_neg he]
      rw [tick_fullscreen_resume cfg st i hen hact hp]
      rw [if_neg (by simp)]
      constructor
      · rw [tick_render_paused, tick_audio_paused]
      · rcases tick_render_needs_or cfg _ i (i.now - st.last_frame_time) with h | h
        · left; rw [h, tick_audio_needs]
        · right; exact h

/-- Witness for C4: a paused tick does nothing, and the deactivation tick
clears the pause. -/
theorem fullscreen_pause_hard_check :
    (tick { fullscreen_enabled := true } {}
        { fullscreen_active := true }).2.mpv_renders = 0 ∧
    (tick { fullscreen_enabled := true } { is_paused_by_fullscreen := true }
        {}).1.is_paused_by_fullscreen = false :=
  ⟨(fullscreen_pause_hard.1 { fullscreen_enabled := true } {}
      { fullscreen_active := true } rfl rfl).1,
   (fullscreen_pause_hard.2 { fullscreen_enabled := true }
      { is_paused_by_fullscreen := true } {} rfl rfl rfl).1⟩

/-- C5: auto-mute is edge-triggered — over any run of ticks whose audio
check fires with observed "other audio playing" values `obs`, the mute
property writes are exactly one per transition of the observed value
(mute-on at a rise, mute-off at a fall), never one per tick; on
[F,F,T,T,T,F] exactly the two writes [mute, unmute] occur. -/
theorem auto_mute_edge_triggered :
    (∀ (cfg : MainCfg) (st : LoopState) (obs : List Bool),
        cfg.audio_enabled = true → cfg.final_mute = false →
        cfg.fullscreen_enabled = false → st.is_paused_by_fullscreen = false →
        collected_mutes
            (run_ticks cfg st (audio_inputs st.last_audio_check_time obs)).2 =
          mute_transitions st.was_muted_by_detector obs) ∧
    collected_mutes (run_ticks {} {}
        (audio_inputs 0 [false, false, true, true, true, false])).2 =
      [true, false] ∧
    mute_transitions false [false, false, true, true, true, false] =
      [true, false] := by
  refine ⟨fun cfg st obs hae hfm hfs hp =>
    run_ticks_audio cfg hae hfm hfs obs st hp, by decide, by decide⟩

/-- Witness for C5: the general statement applied to the single
observation [true] from the initial state. -/
theorem auto_mute_edge_triggered_check :
    collected_mutes (run_ticks {} {} (audio_inputs 0 [true])).2 =
      mute_transitions false [true] :=
  auto_mute_edge_triggered.1 {} {} [true] rfl rfl rfl rfl

end WNE
